import Mathlib

/-!
Verification development for the coach_rag_engine repository
(src/coach_rag_engine/engine.py, src/coach_rag_engine/models.py).

The Python code is embedded shallowly: pure computations become Lean
functions over ℚ/ℤ/String, fallible code returns `Except PyError`,
stateful code passes the state (the pending-execution store) explicitly,
and each external collaborator call is represented by an explicit outcome
parameter (the response the collaborator would have produced).

A central fact about the source, used in several places below: the class
constructor `CoachRAGEngine.__init__` (engine.py 77-111) assigns exactly
the attributes `supabase_url`, `supabase_anon_key`, `edge_function_url`,
`_client`, `_strategy_cache`, `_cache_ttl`, `_cache_timestamps` and
`_pending_executions`.  The attributes `supabase_key`, `openai_key`,
`mem0_api_key` and `mem0_base_url` are read in several methods but are
never assigned anywhere in the repository, so in Python reading them
raises AttributeError.  Such possibly-never-assigned attributes are
modelled as `Option String`: `none` models the attribute never having
been assigned (a fresh engine; reading raises), `some v` models a caller
having assigned the value `v` from outside the class.
-/

namespace CoachRAG

/-- Python exception classes that the embedded code can raise. -/
inductive PyError where
  | valueError
  | attributeError
  | zeroDivisionError
  deriving DecidableEq, Repr

/-- models.PaceTrend (models.py 30-34). -/
inductive PaceTrend where
  | improving | stable | declining | erratic
  deriving DecidableEq, Repr

/-- models.HRTrend (models.py 37-41). -/
inductive HRTrend where
  | stable | rising | spiking | recovering
  deriving DecidableEq, Repr

/-- models.FatigueLevel (models.py 44-49). -/
inductive FatigueLevel where
  | none | low | moderate | high | severe
  deriving DecidableEq, Repr

/-- models.TargetStatus (models.py 52-56). -/
inductive TargetStatus where
  | ahead | on_track | slightly_behind | way_behind
  deriving DecidableEq, Repr

/-- models.CoachPersonality (models.py 18-21). -/
inductive CoachPersonality where
  | strategist | pacer | finisher
  deriving DecidableEq, Repr

/-- models.CoachEnergy (models.py 24-27). -/
inductive CoachEnergy where
  | low | medium | high
  deriving DecidableEq, Repr

/-- The `.value` string of a PaceTrend member (used in f-strings and in the
stored execution context; the enum-to-string map is injective, so enum
members are compared directly elsewhere in this development). -/
def PaceTrend.value : PaceTrend → String
  | .improving => "improving" | .stable => "stable"
  | .declining => "declining" | .erratic => "erratic"

/-- The `.value` string of an HRTrend member. -/
def HRTrend.value : HRTrend → String
  | .stable => "stable" | .rising => "rising"
  | .spiking => "spiking" | .recovering => "recovering"

/-- The `.value` string of a FatigueLevel member. -/
def FatigueLevel.value : FatigueLevel → String
  | .none => "none" | .low => "low" | .moderate => "moderate"
  | .high => "high" | .severe => "severe"

/-- The `.value` string of a TargetStatus member. -/
def TargetStatus.value : TargetStatus → String
  | .ahead => "ahead" | .on_track => "on_track"
  | .slightly_behind => "slightly_behind" | .way_behind => "way_behind"

/-- models.PerformanceAnalysis (models.py 63-102).  Numeric fields are ℚ
(Python floats used only for comparisons and arithmetic), optional ints
are `Option ℤ`.  `zone_percentages` is a dict read only through
`.get(k, 0)` (engine.py 338), so it is modelled as the total function
`ℤ → ℚ` giving that defaulted read.  The free-text analysis fields
(performance_summary, heart_zone_analysis, interval_trends,
hr_variation_analysis, adaptive_microstrategy) and the interval fields
(completed_intervals, interval_paces) feed only log/prompt strings in the
embedded code paths and are omitted. -/
structure PerformanceAnalysis where
  current_pace : ℚ
  target_pace : ℚ
  current_distance : ℚ
  target_distance : ℚ
  elapsed_time : ℚ
  current_hr : Option ℤ := Option.none
  average_hr : Option ℤ := Option.none
  max_hr : Option ℤ := Option.none
  current_zone : Option ℤ := Option.none
  zone_percentages : ℤ → ℚ := fun _ => 0
  pace_trend : PaceTrend := .stable
  hr_trend : HRTrend := .stable
  fatigue_level : FatigueLevel := .none
  target_status : TargetStatus := .on_track
  injury_risk_signals : List String := []
  pace_deviation : ℚ := 0

/-- models.SituationContext (models.py 133-158). -/
structure SituationContext where
  pace_trend : PaceTrend
  hr_trend : HRTrend
  fatigue_level : FatigueLevel
  target_status : TargetStatus
  cardiac_drift : Bool := false
  zone_too_high : Bool := false
  injury_risk : Bool := false
  form_breakdown : Bool := false
  push_possible : Bool := false
  recovery_needed : Bool := false
  personality : CoachPersonality := .strategist
  energy_level : CoachEnergy := .medium
  situation_tags : List String := []
  deriving DecidableEq, Repr

/-- SituationContext.build_tags (models.py 160-211): the tag list as a pure
function of the enums and flags, in the fixed source order. -/
def buildTags (c : SituationContext) : List String :=
  (match c.pace_trend with
    | .declining => ["pace_decline"]
    | .stable => ["pace_stable"]
    | .improving => ["pace_improving"]
    | .erratic => [])
  ++ (match c.hr_trend with
    | .rising => ["hr_rising"]
    | .stable => ["hr_stable"]
    | .spiking => ["hr_spiking"]
    | .recovering => [])
  ++ (match c.target_status with
    | .ahead => ["target_ahead"]
    | .on_track => ["target_on_track"]
    | .slightly_behind => ["target_behind"]
    | .way_behind => ["target_behind"])
  ++ (match c.fatigue_level with
    | .low => ["fatigue_low"]
    | .moderate => ["fatigue_moderate"]
    | .high => ["fatigue_high"]
    | .severe => ["fatigue_high"]
    | .none => [])
  ++ (if c.cardiac_drift then ["cardiac_drift"] else [])
  ++ (if c.zone_too_high then ["zone_too_high"] else [])
  ++ (if c.injury_risk then ["injury_risk"] else [])
  ++ (if c.form_breakdown then ["form_breakdown"] else [])
  ++ (if c.push_possible then ["push_possible"] else [])
  ++ (if c.recovery_needed then ["recovery_needed"] else [])

/-- The push_possible computation inside _build_situation_context
(engine.py 350-356).  Python short-circuit order: the fatigue and
heart-rate-trend conjuncts are checked first, then `current_hr is None`,
then `max_hr is None`, and only then `current_hr / max_hr` is evaluated,
which raises ZeroDivisionError when `max_hr` is the integer 0. -/
def computePushPossible (perf : PerformanceAnalysis) : Except PyError Bool :=
  if (perf.fatigue_level = .none ∨ perf.fatigue_level = .low) ∧ perf.hr_trend = .stable then
    match perf.current_hr, perf.max_hr with
    | Option.none, _ => .ok true
    | some _, Option.none => .ok true
    | some ch, some mh =>
        if mh = 0 then .error .zeroDivisionError
        else .ok (decide ((ch : ℚ) / (mh : ℚ) < 0.85))
  else .ok false

/-- CoachRAGEngine._build_situation_context (engine.py 323-383). -/
def buildSituationContext (perf : PerformanceAnalysis) (personality : CoachPersonality)
    (energy : CoachEnergy) : Except PyError SituationContext :=
  let cardiac_drift :=
    decide (perf.pace_trend = .declining ∧ (perf.hr_trend = .rising ∨ perf.hr_trend = .spiking))
  let zone_45_pct := perf.zone_percentages 4 + perf.zone_percentages 5
  let zone_too_high := decide (zone_45_pct > 25)
  let injury_risk := decide (perf.injury_risk_signals ≠ [])
  let form_breakdown := decide (perf.pace_trend = .declining ∧ perf.hr_trend = .stable)
  match computePushPossible perf with
  | .error e => .error e
  | .ok push_possible =>
    let recovery_needed :=
      decide (perf.fatigue_level = .high ∨ perf.fatigue_level = .severe)
        || zone_too_high || cardiac_drift
    let ctx0 : SituationContext :=
      { pace_trend := perf.pace_trend
        hr_trend := perf.hr_trend
        fatigue_level := perf.fatigue_level
        target_status := perf.target_status
        cardiac_drift := cardiac_drift
        zone_too_high := zone_too_high
        injury_risk := injury_risk
        form_breakdown := form_breakdown
        push_possible := push_possible
        recovery_needed := recovery_needed
        personality := personality
        energy_level := energy
        situation_tags := [] }
    .ok { ctx0 with situation_tags := buildTags ctx0 }

/-- CoachRAGEngine._get_distance_category (engine.py 543-556). -/
def getDistanceCategory (target_distance_meters : ℚ) : String :=
  let target_km := target_distance_meters / 1000
  if target_km < 3 then "casual"
  else if target_km ≤ 5.5 then "5k"
  else if target_km ≤ 11 then "10k"
  else if target_km ≤ 22 then "half"
  else "full"

/-- CoachRAGEngine._get_runner_level (engine.py 558-579). -/
def getRunnerLevel (perf : PerformanceAnalysis) : String :=
  if perf.pace_trend = .stable ∧ perf.hr_trend = .stable ∧ |perf.pace_deviation| < 3 then
    "advanced"
  else if perf.pace_trend = .erratic ∨ perf.hr_trend = .spiking ∨ |perf.pace_deviation| > 15 then
    "beginner"
  else "intermediate"

/-- A before/after metrics dictionary as read by
assess_strategy_effectiveness (engine.py 1415, 1434, 1447): only the keys
"pace", "hr" and "zone" are read, each through `.get(key, 0)`, so a
metrics dict is modelled by the three defaulted reads (an absent key is
the value 0). -/
structure Metrics where
  pace : ℚ := 0
  hr : ℚ := 0
  zone : ℚ := 0
  deriving DecidableEq, Repr

/-- The execution-context dictionary stored by _record_execution
(engine.py 1277-1286).  The stored keys are pace, hr, zone, fatigue,
target_status, pace_trend, hr_trend and situation_tags (enum values are
stored as their `.value` strings; the maps are injective so the enums are
used directly).  The key "zone_too_high" is NOT stored, yet
assess_strategy_effectiveness reads it through
`context.get("zone_too_high", False)` (engine.py 1449); the field is
therefore `Option Bool`, `none` meaning the key is absent (every context
produced by _record_execution), and the defaulted read is `getD false`. -/
structure ExecutionContext where
  pace : ℚ
  hr : Option ℤ
  zone : Option ℤ
  fatigue : FatigueLevel
  target_status : TargetStatus
  pace_trend : PaceTrend
  hr_trend : HRTrend
  situation_tags : List String
  zone_too_high : Option Bool
  deriving DecidableEq, Repr

/-- The execution_context dict built by _record_execution
(engine.py 1277-1286) from the delivered strategy context: note that no
"zone_too_high" key is written. -/
def recordedExecutionContext (perf : PerformanceAnalysis) (context : SituationContext) :
    ExecutionContext :=
  { pace := perf.current_pace
    hr := perf.current_hr
    zone := perf.current_zone
    fatigue := context.fatigue_level
    target_status := context.target_status
    pace_trend := context.pace_trend
    hr_trend := context.hr_trend
    situation_tags := context.situation_tags
    zone_too_high := Option.none }

/-- models.StrategyExecution (models.py 240-263), restricted to the fields
the embedded code paths read or write (the outcome fields and timestamps
are written only through the persistence collaborator). -/
structure StrategyExecution where
  id : String
  user_id : String := ""
  run_id : Option String := Option.none
  strategy_id : Option String := Option.none
  execution_context : ExecutionContext
  strategy_delivered : String := ""
  deriving DecidableEq, Repr

/-- The engine attribute `_pending_executions` (engine.py 109): a dict
from execution id to StrategyExecution, modelled as an association list
read through `List.lookup`. -/
abbrev PendingStore := List (String × StrategyExecution)

/-- The pace block of assess_strategy_effectiveness (engine.py
1414-1431): the triple (flag it sets, score increment, reason labels) it
contributes.  Both pace readings must be positive; the target-behind
check comes first and the fatigue check is its elif. -/
def assessPaceBlock (context : ExecutionContext) (before_metrics after_metrics : Metrics) :
    Bool × ℚ × List String :=
  if before_metrics.pace > 0 ∧ after_metrics.pace > 0 then
    let pace_change := after_metrics.pace - before_metrics.pace
    if context.target_status = .slightly_behind ∨ context.target_status = .way_behind then
      if pace_change < -0.05 then (true, 0.3, ["Pace improved"])
      else (false, 0, [])
    else if context.fatigue = .high ∨ context.fatigue = .severe then
      if |pace_change| < 0.1 then (true, 0.2, ["Pace stabilized during recovery"])
      else (false, 0, [])
    else (false, 0, [])
  else (false, 0, [])

/-- The heart-rate block of assess_strategy_effectiveness
(engine.py 1433-1444). -/
def assessHrBlock (context : ExecutionContext) (before_metrics after_metrics : Metrics) :
    Bool × ℚ × List String :=
  if before_metrics.hr > 0 ∧ after_metrics.hr > 0 then
    let hr_change := after_metrics.hr - before_metrics.hr
    if context.hr_trend = .rising ∨ context.hr_trend = .spiking then
      if hr_change < 3 then (true, 0.2, ["HR stabilized"])
      else (false, 0, [])
    else (false, 0, [])
  else (false, 0, [])

/-- The zone block of assess_strategy_effectiveness (engine.py
1446-1453); `context.get("zone_too_high", False)` is the defaulted read
of a key _record_execution never stores. -/
def assessZoneBlock (context : ExecutionContext) (before_metrics after_metrics : Metrics) :
    Bool × ℚ × List String :=
  if context.zone_too_high.getD false then
    if after_metrics.zone < before_metrics.zone then (true, 0.2, ["Moved to lower zone"])
    else (false, 0, [])
  else (false, 0, [])

/-- CoachRAGEngine.assess_strategy_effectiveness (engine.py 1385-1473),
up to and including the computation of the returned triple
`(was_effective, score, reason)`; the scoring blocks are
`assessPaceBlock`, `assessHrBlock` and `assessZoneBlock` above, executed
in source order, their effects combining exactly as the sequential
Python mutation does.  The trailing record_strategy_outcome call
(engine.py 1461-1471) only posts to the persistence collaborator and
deletes the pending entry on success; it does not affect the returned
triple. -/
def assessStrategyEffectiveness (pending : PendingStore) (execution_id : String)
    (before_metrics after_metrics : Metrics) : Bool × ℚ × String :=
  match pending.lookup execution_id with
  | Option.none => (false, 0, "Execution not found")
  | some execution =>
    let context := execution.execution_context
    let paceBlock := assessPaceBlock context before_metrics after_metrics
    let hrBlock := assessHrBlock context before_metrics after_metrics
    let zoneBlock := assessZoneBlock context before_metrics after_metrics
    -- Cap score (engine.py 1456); score started at 0.5 (engine.py 1404)
    let score := min 1 (max 0 (0.5 + paceBlock.2.1 + hrBlock.2.1 + zoneBlock.2.1))
    let was_effective := paceBlock.1 || hrBlock.1 || zoneBlock.1
    let reasons := paceBlock.2.2 ++ hrBlock.2.2 ++ zoneBlock.2.2
    let reason :=
      if reasons = [] then "No significant improvement detected"
      else String.intercalate "; " reasons
    (was_effective, score, reason)

/-- The effectiveness rule exactly as claim C1 words it (reference
definition following the claim, for comparison with the code): starting
from 0.5, each of the four conditions contributes independently
(+0.3 target behind and pace decreased by at least 0.05; +0.2 fatigue
high/severe and absolute pace change under 0.1; +0.2 heart-rate trend
rising/spiking and heart-rate change under 3; +0.2 zone_too_high true in
the recorded context and after zone lower than before zone), and
was_effective holds exactly when at least one condition contributed. -/
def claimC1EffectivenessRule (context : ExecutionContext)
    (before_metrics after_metrics : Metrics) : Bool × ℚ :=
  let pace_change := after_metrics.pace - before_metrics.pace
  let hr_change := after_metrics.hr - before_metrics.hr
  let cond1 := (context.target_status = .slightly_behind ∨ context.target_status = .way_behind)
      ∧ before_metrics.pace - after_metrics.pace ≥ 0.05
  let cond2 := (context.fatigue = .high ∨ context.fatigue = .severe) ∧ |pace_change| < 0.1
  let cond3 := (context.hr_trend = .rising ∨ context.hr_trend = .spiking) ∧ hr_change < 3
  let cond4 := context.zone_too_high = some true ∧ after_metrics.zone < before_metrics.zone
  (decide (cond1 ∨ cond2 ∨ cond3 ∨ cond4),
   0.5 + (if cond1 then (0.3 : ℚ) else 0) + (if cond2 then (0.2 : ℚ) else 0)
       + (if cond3 then (0.2 : ℚ) else 0) + (if cond4 then (0.2 : ℚ) else 0))

/-- The amended effectiveness rule (claim C1 corrected to the code): the
two pace conditions form an if/elif chain (the fatigue condition is only
reachable when the target status is not behind), the pace conditions
require both pace readings positive and the pace-improvement threshold is
strict (change < -0.05), the heart-rate condition requires both heart
rate readings positive, and the final score is clamped to [0,1]. -/
def amendedCond1 (context : ExecutionContext) (before_metrics after_metrics : Metrics) : Prop :=
  (before_metrics.pace > 0 ∧ after_metrics.pace > 0)
    ∧ (context.target_status = .slightly_behind ∨ context.target_status = .way_behind)
    ∧ after_metrics.pace - before_metrics.pace < -0.05

def amendedCond2 (context : ExecutionContext) (before_metrics after_metrics : Metrics) : Prop :=
  (before_metrics.pace > 0 ∧ after_metrics.pace > 0)
    ∧ ¬(context.target_status = .slightly_behind ∨ context.target_status = .way_behind)
    ∧ (context.fatigue = .high ∨ context.fatigue = .severe)
    ∧ |after_metrics.pace - before_metrics.pace| < 0.1

def amendedCond3 (context : ExecutionContext) (before_metrics after_metrics : Metrics) : Prop :=
  (before_metrics.hr > 0 ∧ after_metrics.hr > 0)
    ∧ (context.hr_trend = .rising ∨ context.hr_trend = .spiking)
    ∧ after_metrics.hr - before_metrics.hr < 3

def amendedCond4 (context : ExecutionContext) (before_metrics after_metrics : Metrics) : Prop :=
  context.zone_too_high = some true ∧ after_metrics.zone < before_metrics.zone

instance (context : ExecutionContext) (b a : Metrics) : Decidable (amendedCond1 context b a) :=
  by unfold amendedCond1; infer_instance

instance (context : ExecutionContext) (b a : Metrics) : Decidable (amendedCond2 context b a) :=
  by unfold amendedCond2; infer_instance

instance (context : ExecutionContext) (b a : Metrics) : Decidable (amendedCond3 context b a) :=
  by unfold amendedCond3; infer_instance

instance (context : ExecutionContext) (b a : Metrics) : Decidable (amendedCond4 context b a) :=
  by unfold amendedCond4; infer_instance

def amendedC1EffectivenessRule (context : ExecutionContext)
    (before_metrics after_metrics : Metrics) : Bool × ℚ :=
  let cond1 := amendedCond1 context before_metrics after_metrics
  let cond2 := amendedCond2 context before_metrics after_metrics
  let cond3 := amendedCond3 context before_metrics after_metrics
  let cond4 := amendedCond4 context before_metrics after_metrics
  (decide (cond1 ∨ cond2 ∨ cond3 ∨ cond4),
   min 1 (max 0 (0.5 + (if cond1 then (0.3 : ℚ) else 0) + (if cond2 then (0.2 : ℚ) else 0)
       + (if cond3 then (0.2 : ℚ) else 0) + (if cond4 then (0.2 : ℚ) else 0))))

/-- models.CoachingStrategy (models.py 218-237).  The trigger_conditions
dict holds the two condition strings under fixed keys and is modelled by
the two strings. -/
structure CoachingStrategy where
  id : String
  strategy_name : String
  strategy_text : String
  strategy_context : Option String := Option.none
  tags : List String := []
  conditions_to_use : String := ""
  when_not_to_use : String := ""
  times_used : ℤ := 0
  success_rate : ℚ := 0
  avg_effectiveness_score : ℚ := 0
  similarity_score : ℚ := 0
  source : String := "database"
  deriving DecidableEq, Repr

/-- models.AdaptiveStrategyOutput (models.py 270-297). -/
structure AdaptiveStrategyOutput where
  strategy_text : String
  strategy_name : String
  situation_summary : String
  selection_reason : String
  source_strategies : List CoachingStrategy := []
  mem0_insights_used : List String := []
  execution_id : Option String := Option.none
  confidence_score : ℚ := 0
  priority_tags : List String := []
  requires_outcome_check : Bool := true
  expected_outcome : String := ""
  deriving DecidableEq, Repr

/-- The fields of the Edge Function response body that
get_adaptive_strategy reads out of `result.get("strategy", {})`
(engine.py 287-297), each through `.get` with a default, so each field is
an Option holding the value when the key is present. -/
structure EdgeStrategyData where
  strategy_text : Option String := Option.none
  strategy_name : Option String := Option.none
  situation_summary : Option String := Option.none
  selection_reason : Option String := Option.none
  confidence_score : Option ℚ := Option.none
  expected_outcome : Option String := Option.none
  execution_id : Option String := Option.none
  deriving DecidableEq, Repr

/-- The outcome of the single Edge Function POST made by
get_adaptive_strategy (engine.py 269-283): either a response with a
status code and (for a 200) the strategy payload fields, or an exception
raised by the call. -/
inductive EdgeFunctionOutcome where
  | response (status : ℕ) (strategy_data : EdgeStrategyData)
  | raised
  deriving DecidableEq, Repr

/-- The fallback output built in the exception handler of
get_adaptive_strategy (engine.py 310-317): confidence 0.5, no execution
id. -/
def fallbackAdaptiveOutput (context : SituationContext) : AdaptiveStrategyOutput :=
  { strategy_text := "Maintain current pace. Stay focused. You\x27re doing well."
    strategy_name := "Fallback Strategy"
    situation_summary :=
      context.pace_trend.value ++ " pace, " ++ context.fatigue_level.value ++ " fatigue"
    selection_reason := "Edge Function unavailable"
    confidence_score := 0.5
    priority_tags := context.situation_tags.take 3 }

/-- CoachRAGEngine.get_adaptive_strategy (engine.py 230-317).  The engine
state relevant to this operation is the pending-execution store, passed
and returned explicitly; the operation reads it nowhere and writes it
nowhere, and the returned store is the input store in every branch.
Control flow: (0) the Supabase configuration check raises ValueError
first of all (engine.py 254-255); (1) _build_situation_context runs
BEFORE the try block (engine.py 258), so an exception it raises
propagates; (2) the try block covers the Edge Function call: a 200
response builds the output from the payload, any other status raises
in-block (engine.py 305) and every in-block exception is caught at
engine.py 307 and converted to the fallback output with
confidence_score 0.5 and no execution id. -/
def getAdaptiveStrategy (supabase_url supabase_anon_key : String)
    (pending : PendingStore) (performance_analysis : PerformanceAnalysis)
    (personality : CoachPersonality) (energy_level : CoachEnergy)
    (_user_id : String) (_run_id : Option String) (edge : EdgeFunctionOutcome) :
    Except PyError AdaptiveStrategyOutput × PendingStore :=
  if supabase_url = "" ∨ supabase_anon_key = "" then
    (.error .valueError, pending)
  else
    match buildSituationContext performance_analysis personality energy_level with
    | .error e => (.error e, pending)
    | .ok context =>
      let fallbackOutput := fallbackAdaptiveOutput context
      match edge with
      | .raised => (.ok fallbackOutput, pending)
      | .response status strategy_data =>
        if status = 200 then
          (.ok
            { strategy_text := strategy_data.strategy_text.getD "Maintain current effort."
              strategy_name := strategy_data.strategy_name.getD "Adaptive Strategy"
              situation_summary := strategy_data.situation_summary.getD
                (context.pace_trend.value ++ " pace, " ++ context.fatigue_level.value ++ " fatigue")
              selection_reason := strategy_data.selection_reason.getD
                "Best match for current situation"
              confidence_score := strategy_data.confidence_score.getD 0.7
              priority_tags := context.situation_tags.take 3
              expected_outcome := strategy_data.expected_outcome.getD "Improved performance"
              execution_id := strategy_data.execution_id },
           pending)
        else (.ok fallbackOutput, pending)

/-- Whether an Edge Function call counted as a failure in
get_adaptive_strategy: a raised exception or any non-200 status. -/
def edgeFailed : EdgeFunctionOutcome → Prop
  | .raised => True
  | .response status _ => status ≠ 200

/-- Stable insertion of an element into a list: the element goes in front
of the first position whose element compares le-true with it.  Together
with `pySort` this models the output of Python `sorted(..., reverse=True)`
(a stable sort) when `le a b` is the total comparison "a may come before
b", i.e. key of a ≥ key of b for a descending sort: equal keys keep their
original relative order. -/
def insertSorted (le : α → α → Bool) (a : α) : List α → List α
  | [] => [a]
  | b :: t => if le a b then a :: b :: t else b :: insertSorted le a t

/-- Stable sort by repeated insertion (see `insertSorted`). -/
def pySort (le : α → α → Bool) (l : List α) : List α :=
  l.foldr (insertSorted le) []

/-- One row returned by the strategy-KB collaborator, as consumed by
_retrieve_strategies and _llm_match_conditions.  The keys id, title,
strategy_text, conditions_to_use and when_not_to_use are accessed with
mandatory indexing (engine.py 483-490, 662-665) and are mandatory String
fields; tags, times_used, success_rate and avg_effectiveness_score are
read through `.get` with defaults [] / 0 / 0.0 / 0.0 and are modelled by
the defaulted reads; similarity is read through
`.get("similarity", ...)` and may be absent.  match_score and
match_reason model the keys the reranker writes onto a row
(engine.py 760-761): absent until the reranker attaches them. -/
structure KBStrategy where
  id : String
  title : String
  strategy_text : String
  conditions_to_use : String := ""
  when_not_to_use : String := ""
  tags : List String := []
  times_used : ℤ := 0
  success_rate : ℚ := 0
  avg_effectiveness_score : ℚ := 0
  similarity : Option ℚ := Option.none
  match_score : Option ℚ := Option.none
  match_reason : Option String := Option.none
  deriving DecidableEq, Repr

/-- The descending comparison used by the reranker fallback
(engine.py 654-658, 780-784, 790-794):
`sorted(key=lambda s: (s.get("success_rate", 0.0), s.get("times_used", 0)), reverse=True)`.
Python compares the key tuples lexicographically; `a` may precede `b`
exactly when the key of `a` is lexicographically ≥ the key of `b`. -/
def fallbackSortGE (a b : KBStrategy) : Bool :=
  decide (b.success_rate < a.success_rate
    ∨ (b.success_rate = a.success_rate ∧ b.times_used ≤ a.times_used))

/-- The fallback ranking of _llm_match_conditions: the unmodified
candidate rows sorted by (success_rate, times_used) descending, top 8. -/
def rerankFallback (kb_strategies : List KBStrategy) : List KBStrategy :=
  (pySort fallbackSortGE kb_strategies).take 8

/-- The descending comparison of the reranker success path
(engine.py 764-772): key
`(x.get("match_score", 0.0), x.get("success_rate", 0.0), x.get("times_used", 0))`,
tuples compared lexicographically, reverse=True. -/
def rerankSortGE (a b : KBStrategy) : Bool :=
  decide (b.match_score.getD 0 < a.match_score.getD 0
    ∨ (b.match_score.getD 0 = a.match_score.getD 0
        ∧ (b.success_rate < a.success_rate
            ∨ (b.success_rate = a.success_rate ∧ b.times_used ≤ a.times_used))))

/-- One element of the match list in the condition-matching response, as
the reranker reads it: `m["id"]` is mandatory (engine.py 753),
`m.get("match", False)` is modelled by `isMatch` with the default
absorbed, and `match_score` / `reason` are read through `.get` with
defaults 0.7 / "" (engine.py 760-761). -/
structure MatchEntry where
  id : String
  isMatch : Bool := false
  match_score : Option ℚ := Option.none
  reason : Option String := Option.none
  deriving DecidableEq, Repr

/-- The JSON value obtained from `json.loads` on the (fence-stripped)
condition-matching response content, restricted to the shapes the parser
distinguishes: a bare JSON array of match entries, or a JSON object whose
optional "matches" key holds the match list. -/
inductive JsonValue where
  | jarray (items : List MatchEntry)
  | jobject (matchesField : Option (List MatchEntry))
  deriving DecidableEq, Repr

/-- The response content of the condition-matching collaborator after
code-fence stripping: either it parses to a JSON value or `json.loads`
raises JSONDecodeError. -/
inductive LLMContent where
  | parses (v : JsonValue)
  | unparseable
  deriving DecidableEq, Repr

/-- The outcome of the single chat-completion POST in
_llm_match_conditions: a response with a status code and content, or an
exception raised by the call. -/
inductive LLMOutcome where
  | response (status : ℕ) (content : LLMContent)
  | raised
  deriving DecidableEq, Repr

/-- The strategies kept and annotated by the reranker success path
(engine.py 752-762): the match lookup is the dict
`{m["id"]: m for m in matches if m.get("match", False)}` (a later entry
with the same id overwrites an earlier one, hence the `reverse.find?`),
and each candidate found in it is kept with match_score and reason
attached; a candidate absent from the lookup is dropped. -/
def attachMatches (kb_strategies : List KBStrategy) (matchList : List MatchEntry) :
    List KBStrategy :=
  let matchedEntries := matchList.filter (·.isMatch)
  kb_strategies.filterMap fun s =>
    match matchedEntries.reverse.find? (fun m => m.id = s.id) with
    | some m => some { s with match_score := some (m.match_score.getD 0.7)
                              match_reason := some (m.reason.getD "") }
    | Option.none => Option.none

/-- CoachRAGEngine._llm_match_conditions (engine.py 641-794).
`openai_key` is the never-assigned engine attribute (see the header
note): the guard `if not self.openai_key or not kb_strategies`
(engine.py 652) reads it first of all, so with the attribute unset
(`none`) the method raises AttributeError before anything else.  With
the attribute set: a falsy key or empty candidate list returns the
fallback ranking; a raised call, a non-200 status, or unparseable
content all fall to the fallback ranking; a parsed top-level JSON array
hits `parsed.get("matches", [])` (engine.py 742) which raises
AttributeError on a Python list — that exception is caught by the outer
handler (engine.py 786) and the final fallback ranking
(engine.py 790-794) is returned; a parsed JSON object yields its
"matches" list (an object without the key re-parses the same content,
which is not a list, so the match list is empty, engine.py 743-750),
after which candidates are filtered, annotated, sorted and truncated to
8 (engine.py 752-775). -/
def llmMatchConditions (openai_key : Option String) (kb_strategies : List KBStrategy)
    (llm : LLMOutcome) : Except PyError (List KBStrategy) :=
  match openai_key with
  | Option.none => .error .attributeError
  | some key =>
    if key = "" ∨ kb_strategies = [] then .ok (rerankFallback kb_strategies)
    else
      match llm with
      | .raised => .ok (rerankFallback kb_strategies)
      | .response status content =>
        if status = 200 then
          match content with
          | .unparseable => .ok (rerankFallback kb_strategies)
          | .parses (.jarray _) => .ok (rerankFallback kb_strategies)
          | .parses (.jobject matchesField) =>
            let matchList := matchesField.getD []
            let matched_strategies := attachMatches kb_strategies matchList
            .ok ((pySort rerankSortGE matched_strategies).take 8)
        else .ok (rerankFallback kb_strategies)

/-- CoachRAGEngine._get_fallback_strategies (engine.py 796-849): the
static in-process strategy table, selected from the context flags. -/
def getFallbackStrategies (context : SituationContext) : List CoachingStrategy :=
  let strategies :=
    (if context.cardiac_drift then
      [{ id := "fallback-1"
         strategy_name := "Cardiac Drift Management"
         strategy_text :=
           "Classic drift pattern. Ease 15 sec/km for next 500m. Focus on efficiency, not speed."
         tags := ["cardiac_drift", "hr_rising", "pace_decline"]
         source := "fallback" : CoachingStrategy }]
     else []) ++
    (if context.pace_trend = .declining then
      [{ id := "fallback-2"
         strategy_name := "Cadence Reset"
         strategy_text :=
           "Quick feet, light steps. Count to 180. Shorten stride, find your rhythm."
         tags := ["pace_decline", "form_breakdown"]
         source := "fallback" : CoachingStrategy }]
     else []) ++
    (if context.fatigue_level = .high ∨ context.fatigue_level = .severe then
      [{ id := "fallback-3"
         strategy_name := "Active Recovery"
         strategy_text :=
           "Next 500m: easy pace, Zone 2. Shake out arms, breathe deep. Recharge."
         tags := ["fatigue_high", "recovery_needed"]
         source := "fallback" : CoachingStrategy }]
     else []) ++
    (if context.injury_risk then
      [{ id := "fallback-4"
         strategy_name := "Injury Prevention"
         strategy_text :=
           "Warning signs detected. Ease pace immediately. Shorter strides, land softly."
         tags := ["injury_risk"]
         source := "fallback" : CoachingStrategy }]
     else [])
  if strategies = [] then
    [{ id := "fallback-default"
       strategy_name := "Maintain Pace"
       strategy_text :=
         "Hold current pace. Stay in Zone 3. Steady breathing. You\x27re doing well."
       tags := ["pace_stable"]
       source := "fallback" : CoachingStrategy }]
  else strategies

/-- CoachRAGEngine._generate_embedding (engine.py 1214-1218): the method
is stubbed out ("kept for compatibility but won't be used") and returns
None unconditionally, so _retrieve_strategies never has a situation
embedding and never reaches its vector-search branch. -/
def generateEmbedding : Option (List ℚ) := Option.none

/-- The outcome of the non-vector KB query POST inside
_query_kb_fallback (engine.py 511-541). -/
inductive KBQueryOutcome where
  | response (status : ℕ) (rows : List KBStrategy)
  | raised
  deriving DecidableEq, Repr

/-- The outcome of the vector-search POST inside _retrieve_strategies
(engine.py 429-444); the branch making it is unreachable (see
`generateEmbedding`) but is modelled for fidelity. -/
inductive VectorOutcome where
  | response (status : ℕ) (rows : List KBStrategy)
  | raised
  deriving DecidableEq, Repr

/-- A call to a retrieval collaborator, recorded in the trace that
`retrieveStrategies` returns alongside its result (the condition-matching
chat call is modelled inside `llmMatchConditions` and is not a retrieval
call). -/
inductive CollabCall where
  | vectorSearch (match_threshold : ℚ) (match_count : ℕ) (distance runner_level : String)
  | kbQuery (distance runner_level : String) (limit : ℕ)
  deriving DecidableEq, Repr

/-- CoachRAGEngine._query_kb_fallback (engine.py 511-541): a 200 response
yields its rows; any other status, or a raised call (caught by its own
handler, engine.py 538), yields the empty list. -/
def queryKbFallback (kbq : KBQueryOutcome) : List KBStrategy :=
  match kbq with
  | .response 200 rows => rows
  | .response _ _ => []
  | .raised => []

/-- The common tail of _retrieve_strategies once a KB row list is in hand
(engine.py 469-502): an empty row list falls back to the static table;
otherwise the rows are reranked by _llm_match_conditions — whose
AttributeError on an unset openai_key attribute is caught by the
enclosing handler (engine.py 504) and turned into the static fallback —
and the surviving rows are converted to CoachingStrategy values
(engine.py 481-499). -/
def afterKbRows (openai_key : Option String) (context : SituationContext) (embedded : Bool)
    (kb_strategies : List KBStrategy) (llm : LLMOutcome) : List CoachingStrategy :=
  if kb_strategies = [] then getFallbackStrategies context
  else
    match llmMatchConditions openai_key kb_strategies llm with
    | .error _ => getFallbackStrategies context
    | .ok matched_strategies =>
      matched_strategies.map fun s =>
        { id := s.id
          strategy_name := s.title
          strategy_text := s.strategy_text
          strategy_context :=
            some ("Use when: " ++ s.conditions_to_use ++ ". Avoid when: " ++ s.when_not_to_use)
          tags := s.tags
          conditions_to_use := s.conditions_to_use
          when_not_to_use := s.when_not_to_use
          times_used := s.times_used
          success_rate := s.success_rate
          avg_effectiveness_score := s.avg_effectiveness_score
          similarity_score := s.match_score.getD (s.similarity.getD 0.7)
          source := if embedded then "kb_vector" else "kb" }

/-- CoachRAGEngine._retrieve_strategies (engine.py 389-509).  The
in-memory strategy cache `self._strategy_cache` (and its timestamps) is
an argument because it is engine state in scope, but the method body
never reads or writes it — it appears nowhere between lines 389 and 509.
The entry guard `if not self.supabase_url or not self.supabase_key`
(engine.py 403) short-circuits: with a falsy URL the static fallback is
returned; otherwise the read of the never-assigned attribute
supabase_key raises AttributeError (outside the try block, so it
propagates).  With the attribute set and truthy, the situation embedding
is always None (see `generateEmbedding`), so the vector-search branch is
dead and the non-vector KB query runs, followed by `afterKbRows`.  A
raised vector-search call would be caught at engine.py 504 and produce
the static fallback. -/
def retrieveStrategies (supabase_url : String) (supabase_key openai_key : Option String)
    (_strategy_cache : List ((String × String) × List CoachingStrategy))
    (context : SituationContext) (perf : PerformanceAnalysis)
    (vs : VectorOutcome) (kbq : KBQueryOutcome) (llm : LLMOutcome) :
    Except PyError (List CoachingStrategy) × List CollabCall :=
  if supabase_url = "" then (.ok (getFallbackStrategies context), [])
  else
    match supabase_key with
    | Option.none => (.error .attributeError, [])
    | some key =>
      if key = "" then (.ok (getFallbackStrategies context), [])
      else
        let distance_category := getDistanceCategory perf.target_distance
        let runner_level := getRunnerLevel perf
        match generateEmbedding with
        | some _ =>
          -- vector branch (engine.py 426-461): unreachable, kept for fidelity
          let vcall := CollabCall.vectorSearch 0.65 15 distance_category runner_level
          match vs with
          | .raised => (.ok (getFallbackStrategies context), [vcall])
          | .response status rows =>
            if status = 200 ∧ rows ≠ [] then
              (.ok (afterKbRows openai_key context true rows llm), [vcall])
            else
              (.ok (afterKbRows openai_key context true (queryKbFallback kbq) llm),
               [vcall, CollabCall.kbQuery distance_category runner_level 15])
        | Option.none =>
          (.ok (afterKbRows openai_key context false (queryKbFallback kbq) llm),
           [CollabCall.kbQuery distance_category runner_level 15])

/-- models.Mem0CoachingMemory (models.py 317-331); the arbitrary metadata
dict is read only for its "category" key and is represented by that
defaulted read inside `category`. -/
structure Mem0CoachingMemory where
  memory_id : String
  memory_text : String
  category : String
  relevance_score : ℚ := 0
  what_worked : Option String := Option.none
  what_didnt_work : Option String := Option.none
  runner_preference : Option String := Option.none
  deriving DecidableEq, Repr

/-- One result row of the memory-search collaborator, with every field
read through `.get` with a default (engine.py 910-915). -/
structure Mem0Result where
  id : Option String := Option.none
  memory : Option String := Option.none
  metadata_category : Option String := Option.none
  score : Option ℚ := Option.none
  deriving DecidableEq, Repr

/-- The outcome of one memory-search POST (engine.py 894-905); a 200
response yields `results` (the defaulted read of the "results" key). -/
inductive Mem0QueryOutcome where
  | response (status : ℕ) (results : List Mem0Result)
  | raised
  deriving DecidableEq, Repr

/-- Python substring membership `needle in haystack`. -/
def pyIn (needle haystack : String) : Bool :=
  (haystack.splitOn needle).length != 1

/-- The memory built from one search result (engine.py 910-927),
including the keyword insight extraction over the lowercased text. -/
def toCoachingMemory (r : Mem0Result) : Mem0CoachingMemory :=
  let memory_text := r.memory.getD ""
  let text := memory_text.toLower
  { memory_id := r.id.getD ""
    memory_text := memory_text
    category := r.metadata_category.getD "general"
    relevance_score := r.score.getD 0
    what_worked :=
      if pyIn "worked" text || pyIn "effective" text || pyIn "helped" text then
        some memory_text
      else Option.none
    what_didnt_work :=
      if pyIn "didn\x27t work" text || pyIn "ineffective" text || pyIn "failed" text then
        some memory_text
      else Option.none
    runner_preference :=
      if pyIn "prefers" text || pyIn "likes" text || pyIn "responds to" text then
        some memory_text
      else Option.none }

/-- The results accumulated by the query loop (engine.py 893-927): the
loop runs over the outcomes of the (at most three) issued queries in
order, a 200 response contributes its results, a non-200 response
contributes nothing, and a raised call aborts the loop (the exception is
caught by the handler at engine.py 929, keeping what was collected). -/
def collectMem0Results : List Mem0QueryOutcome → List Mem0Result
  | [] => []
  | .raised :: _ => []
  | .response status results :: rest =>
      (if status = 200 then results else []) ++ collectMem0Results rest

/-- The descending relevance comparison of the deduplication pass
(engine.py 935). -/
def mem0RelevanceGE (a b : Mem0CoachingMemory) : Bool :=
  decide (b.relevance_score ≤ a.relevance_score)

/-- The `seen`-set deduplication by exact memory text, first occurrence
wins (engine.py 933-938). -/
def dedupByText (seen : List String) : List Mem0CoachingMemory → List Mem0CoachingMemory
  | [] => []
  | m :: rest =>
      if m.memory_text ∈ seen then dedupByText seen rest
      else m :: dedupByText (m.memory_text :: seen) rest

/-- CoachRAGEngine._fetch_mem0_coaching_memories (engine.py 869-940).
The guard `if not self.mem0_api_key: return []` (engine.py 876) reads the
never-assigned attribute mem0_api_key first of all, OUTSIDE the try
block, so on a fresh engine the method raises AttributeError instead of
returning the empty list.  With the attribute set: a falsy key returns
[]; the try block then reads self.mem0_base_url inside the first POST
expression (engine.py 895), so with that attribute unset the
AttributeError IS caught (engine.py 929) and the empty collection is
deduplicated and returned; otherwise the query loop collects results
until a call raises, and the top 5 deduplicated memories by descending
relevance are returned. -/
def fetchMem0CoachingMemories (mem0_api_key mem0_base_url : Option String)
    (_user_id : String) (_context : SituationContext)
    (outcomes : List Mem0QueryOutcome) : Except PyError (List Mem0CoachingMemory) :=
  match mem0_api_key with
  | Option.none => .error .attributeError
  | some key =>
    if key = "" then .ok []
    else
      let memories :=
        match mem0_base_url with
        | Option.none => []
        | some _ => (collectMem0Results (outcomes.take 3)).map toCoachingMemory
      let unique_memories := dedupByText [] (pySort mem0RelevanceGE memories)
      .ok (unique_memories.take 5)

/-- The outcome of the record_strategy_execution POST
(engine.py 1288-1302). -/
inductive RecordExecutionOutcome where
  | response (status : ℕ) (execution_id : String)
  | raised
  deriving DecidableEq, Repr

/-- CoachRAGEngine._record_execution (engine.py 1254-1319): the ONLY
code in the repository that inserts into the pending-execution store —
and it has no caller anywhere in the repository (get_adaptive_strategy
delegates recording to the Edge Function, engine.py 297).  Its guard
reads the never-assigned supabase_key attribute (engine.py 1264) outside
the try block, so with a non-empty URL it raises.  With the attribute
set, on a 200 response it attaches the returned execution id to the
output and inserts the pending entry (insertion modelled by prepending,
matching dict-overwrite semantics for `List.lookup`). -/
def recordExecution (supabase_url : String) (supabase_key : Option String)
    (pending : PendingStore) (user_id : String) (run_id : Option String)
    (strategy : AdaptiveStrategyOutput) (context : SituationContext)
    (performance_analysis : PerformanceAnalysis) (outcome : RecordExecutionOutcome) :
    Except PyError (AdaptiveStrategyOutput × PendingStore) :=
  if supabase_url = "" then .ok (strategy, pending)
  else
    match supabase_key with
    | Option.none => .error .attributeError
    | some key =>
      if key = "" then .ok (strategy, pending)
      else
        let strategy_id :=
          match strategy.source_strategies with
          | [] => Option.none
          | s :: _ => if s.id.startsWith "fallback" then Option.none else some s.id
        let execution_context := recordedExecutionContext performance_analysis context
        match outcome with
        | .raised => .ok (strategy, pending)
        | .response status execution_id =>
          if status = 200 then
            .ok ({ strategy with execution_id := some execution_id },
                 (execution_id,
                  { id := execution_id
                    user_id := user_id
                    run_id := run_id
                    strategy_id := strategy_id
                    execution_context := execution_context
                    strategy_delivered := strategy.strategy_text }) :: pending)
          else .ok (strategy, pending)

/-! Concrete instances used by the witness and counterexample theorems
below. -/

/-- A performance snapshot whose heart-rate fields trigger the
ZeroDivisionError in the push_possible computation: fatigue none,
heart-rate trend stable, current_hr present, max_hr present and zero. -/
def perfHrZero : PerformanceAnalysis :=
  { current_pace := 6
    target_pace := 6
    current_distance := 1000
    target_distance := 5000
    elapsed_time := 360
    current_hr := some 100
    max_hr := some 0 }

/-- A benign performance snapshot on which the context builder succeeds
(no heart-rate data, everything stable). -/
def perfOk : PerformanceAnalysis :=
  { current_pace := 6
    target_pace := 6
    current_distance := 1000
    target_distance := 10000
    elapsed_time := 360 }

/-- The situation context the builder produces on `perfOk` (fatigue none
and stable heart rate with no readings give push_possible). -/
def ctxOk : SituationContext :=
  { pace_trend := .stable
    hr_trend := .stable
    fatigue_level := .none
    target_status := .on_track
    push_possible := true
    situation_tags := ["pace_stable", "hr_stable", "target_on_track", "push_possible"] }

/-- A delivery-time situation context with the target a long way behind
and fatigue high (the combination on which the claimed independent
scoring and the coded if/elif chain disagree). -/
def ctxBehindTired : SituationContext :=
  { pace_trend := .declining
    hr_trend := .stable
    fatigue_level := .high
    target_status := .way_behind
    recovery_needed := true
    situation_tags := ["pace_decline", "hr_stable", "target_behind", "fatigue_high",
                       "recovery_needed"] }

/-- A pending execution recorded (via the _record_execution context
shape) for `ctxBehindTired`. -/
def execBehindTired : StrategyExecution :=
  { id := "exec-1"
    user_id := "user-1"
    execution_context := recordedExecutionContext perfOk ctxBehindTired
    strategy_delivered := "Surge 10 seconds per km for the next 400m." }

/-- Before metrics with an unchanged pace and no heart-rate or zone
readings. -/
def mBefore : Metrics := { pace := 6 }

/-- After metrics identical to `mBefore`: the pace stabilized. -/
def mAfter : Metrics := { pace := 6 }

/-- A KB row with a low success rate that a bare-array response marks as
a match. -/
def kbRowA : KBStrategy :=
  { id := "strat-a"
    title := "Surge Strategy"
    strategy_text := "Push the next interval."
    times_used := 2
    success_rate := 0.2 }

/-- A KB row with a high success rate that no match entry mentions. -/
def kbRowB : KBStrategy :=
  { id := "strat-b"
    title := "Hold Strategy"
    strategy_text := "Hold the current pace."
    times_used := 9
    success_rate := 0.9 }

/-- A strategy list sitting in the (never consulted) in-memory cache. -/
def cachedStrategies : List CoachingStrategy :=
  [{ id := "cached-1"
     strategy_name := "Cached Strategy"
     strategy_text := "Use the cached plan."
     source := "database" }]

/-- A well-formed match entry marking `kbRowA` as a match, as it would
appear inside a bare JSON array response. -/
def bareArrayEntry : MatchEntry :=
  { id := "strat-a"
    isMatch := true
    match_score := some 0.9
    reason := some "conditions fit" }

/-- The situations in which _llm_match_conditions (with its key attribute
set) returns the fallback ranking: a falsy key, an empty candidate list,
a raised call, a non-200 status, unparseable content, or a bare JSON
array (the last by the AttributeError described at `llmMatchConditions`).
-/
def rerankFallbackTrigger (key : String) (kb_strategies : List KBStrategy)
    (llm : LLMOutcome) : Prop :=
  key = "" ∨ kb_strategies = [] ∨ llm = .raised
    ∨ (∃ status content, llm = .response status content ∧ status ≠ 200)
    ∨ (∃ status, llm = .response status .unparseable)
    ∨ (∃ status items, llm = .response status (.parses (.jarray items)))

/-- The push_possible formula exactly as claim C5 words it (reference
definition following the claim): fatigue none/low AND heart-rate trend
stable AND (heart-rate headroom unknown OR current/max heart-rate
ratio < 0.85).  Division here is the total Lean division on ℚ; the code
against which it is compared raises on a zero denominator instead. -/
def specPushPossible (perf : PerformanceAnalysis) : Bool :=
  decide (perf.fatigue_level = .none ∨ perf.fatigue_level = .low)
    && decide (perf.hr_trend = .stable)
    && (match perf.current_hr, perf.max_hr with
        | Option.none, _ => true
        | some _, Option.none => true
        | some ch, some mh => decide ((ch : ℚ) / (mh : ℚ) < 0.85))

/-- The `getDistanceCategory` branch conditions restated over metres
instead of kilometres. -/
theorem getDistanceCategory_eq_meters (d : ℚ) :
    getDistanceCategory d =
      if d < 3000 then "casual"
      else if d ≤ 5500 then "5k"
      else if d ≤ 11000 then "10k"
      else if d ≤ 22000 then "half"
      else "full" := by
  unfold getDistanceCategory
  have e1 : d / 1000 < 3 ↔ d < 3000 := by
    rw [div_lt_iff (by norm_num : (0:ℚ) < 1000)]; norm_num
  have e2 : d / 1000 ≤ 5.5 ↔ d ≤ 5500 := by
    rw [div_le_iff (by norm_num : (0:ℚ) < 1000)]; norm_num
  have e3 : d / 1000 ≤ 11 ↔ d ≤ 11000 := by
    rw [div_le_iff (by norm_num : (0:ℚ) < 1000)]; norm_num
  have e4 : d / 1000 ≤ 22 ↔ d ≤ 22000 := by
    rw [div_le_iff (by norm_num : (0:ℚ) < 1000)]; norm_num
  simp only [e1, e2, e3, e4]

/-- C9: distance_category is a total, non-overlapping partition of
non-negative target distances into exactly one of
casual / 5k / 10k / half / full, with inclusive upper bounds checked in
ascending order: under 3000m casual, up to and including 5500m "5k"
(so 5500m gives "5k" and 5501m gives "10k"), up to 11000m "10k", up to
22000m "half", and everything larger "full". -/
theorem distance_category_partition (d : ℚ) (h : 0 ≤ d) :
    (getDistanceCategory d = "casual" ↔ d < 3000) ∧
    (getDistanceCategory d = "5k" ↔ 3000 ≤ d ∧ d ≤ 5500) ∧
    (getDistanceCategory d = "10k" ↔ 5500 < d ∧ d ≤ 11000) ∧
    (getDistanceCategory d = "half" ↔ 11000 < d ∧ d ≤ 22000) ∧
    (getDistanceCategory d = "full" ↔ 22000 < d) := by
  rw [getDistanceCategory_eq_meters]
  split_ifs with h1 h2 h3 h4 <;>
    refine ⟨?_, ?_, ?_, ?_, ?_⟩ <;> constructor <;> intro hx <;>
      first
        | rfl
        | linarith
        | (exact absurd hx (by decide))
        | (exact absurd hx (by push_neg; constructor <;> linarith))
        | (exact absurd hx (by push_neg; intro; linarith))
        | (refine ⟨by linarith, by linarith⟩)

/-- C9 witness: the 5500m boundary instance of the partition theorem. -/
theorem distance_category_partition_witness :
    (getDistanceCategory 5500 = "5k" ↔ 3000 ≤ (5500:ℚ) ∧ (5500:ℚ) ≤ 5500) :=
  (distance_category_partition 5500 (by norm_num)).2.1

/-- C10: for every execution id and every before/after metric pair,
whatever their magnitudes, the effectiveness score returned by
assess_strategy_effectiveness lies in the closed interval [0, 1]. -/
theorem assess_effectiveness_score_in_unit_interval (pending : PendingStore)
    (execution_id : String) (before_metrics after_metrics : Metrics) :
    0 ≤ (assessStrategyEffectiveness pending execution_id before_metrics after_metrics).2.1 ∧
    (assessStrategyEffectiveness pending execution_id before_metrics after_metrics).2.1 ≤ 1 := by
  unfold assessStrategyEffectiveness
  cases hl : pending.lookup execution_id with
  | none => simp
  | some ex =>
    simp only
    exact ⟨le_min (by norm_num) (le_max_left 0 _), min_le_left 1 _⟩

/-- C5 counterexample: on a snapshot with a present current heart rate
and a present-but-zero max heart rate (with fatigue none and heart-rate
trend stable), the context builder raises ZeroDivisionError instead of
producing a context, refuting total success for all zero/absent
heart-rate field combinations. -/
theorem build_context_zero_maxhr_counterexample :
    buildSituationContext perfHrZero .strategist .medium = .error .zeroDivisionError := by
  rfl

/-- C5 amended: the SituationContextBuilder succeeds on every input
EXCEPT when fatigue is none/low, heart-rate trend is stable, current_hr
is present and max_hr is present with value zero, where the current/max
heart-rate division raises ZeroDivisionError; whenever it succeeds,
push_possible equals the claimed formula (fatigue none/low AND heart-rate
trend stable AND (headroom unknown OR current/max ratio < 0.85)). -/
theorem build_context_total_amended (perf : PerformanceAnalysis)
    (personality : CoachPersonality) (energy : CoachEnergy)
    (h : ¬((perf.fatigue_level = .none ∨ perf.fatigue_level = .low)
            ∧ perf.hr_trend = .stable ∧ perf.current_hr ≠ Option.none
            ∧ perf.max_hr = some 0)) :
    ∃ ctx, buildSituationContext perf personality energy = .ok ctx ∧
      ctx.push_possible = specPushPossible perf := by
  have hpp : computePushPossible perf = .ok (specPushPossible perf) := by
    unfold computePushPossible specPushPossible
    by_cases hg : (perf.fatigue_level = .none ∨ perf.fatigue_level = .low)
        ∧ perf.hr_trend = .stable
    · rcases hch : perf.current_hr with _ | ch <;>
        rcases hmh : perf.max_hr with _ | mh <;>
          simp only [hg, if_true, if_pos hg]
      · simp [hg.1, hg.2]
      · simp [hg.1, hg.2]
      · simp [hg.1, hg.2]
      · have hmh0 : mh ≠ 0 := by
          intro h0
          exact h ⟨hg.1, hg.2, by simp [hch], by simp [hmh, h0]⟩
        simp [hg.1, hg.2, hmh0]
    · rw [if_neg hg]
      have : ¬(perf.fatigue_level = .none ∨ perf.fatigue_level = .low)
          ∨ ¬(perf.hr_trend = .stable) := by tauto
      rcases this with hf | ht
      · simp [hf]
      · simp [ht]
  unfold buildSituationContext
  rw [hpp]
  exact ⟨_, rfl, rfl⟩

/-- C5 amended witness: the amended theorem applied to the benign
snapshot `perfOk`. -/
theorem build_context_total_amended_witness :
    ∃ ctx, buildSituationContext perfOk .strategist .medium = .ok ctx ∧
      ctx.push_possible = specPushPossible perfOk :=
  build_context_total_amended perfOk .strategist .medium (by decide)

/-- C2: get_adaptive_strategy never inserts into the pending-execution
store (the store it returns is the store it was given, in every branch:
configuration error, context-builder error, 200 response, non-200
response, raised call), and consequently for any execution id with no
pending entry — in particular any id attached to a delivered output,
since delivery never records one locally — a subsequent
assess_strategy_effectiveness call returns the not-found result
(False, 0.0, "Execution not found"). -/
theorem get_adaptive_strategy_frame (supabase_url supabase_anon_key : String)
    (pending : PendingStore) (perf : PerformanceAnalysis) (personality : CoachPersonality)
    (energy : CoachEnergy) (user_id : String) (run_id : Option String)
    (edge : EdgeFunctionOutcome) (execution_id : String) (before_metrics after_metrics : Metrics)
    (h : pending.lookup execution_id = Option.none) :
    (getAdaptiveStrategy supabase_url supabase_anon_key pending perf personality energy
        user_id run_id edge).2 = pending ∧
    assessStrategyEffectiveness
        (getAdaptiveStrategy supabase_url supabase_anon_key pending perf personality energy
          user_id run_id edge).2 execution_id before_metrics after_metrics
      = (false, 0, "Execution not found") := by
  have hst : (getAdaptiveStrategy supabase_url supabase_anon_key pending perf personality energy
      user_id run_id edge).2 = pending := by
    unfold getAdaptiveStrategy
    split_ifs with hcfg
    · rfl
    · cases hb : buildSituationContext perf personality energy with
      | error er => rfl
      | ok context =>
        cases edge with
        | raised => rfl
        | response status strategy_data =>
          by_cases hs : status = 200 <;> simp [hs]
  refine ⟨hst, ?_⟩
  rw [hst]
  simp only [assessStrategyEffectiveness, h]

/-- C2 witness: the frame theorem on an empty pending store and a
concrete delivered execution id. -/
theorem get_adaptive_strategy_frame_witness :
    (getAdaptiveStrategy "https://example.supabase.co" "anon-key" [] perfOk .strategist .medium
        "user-1" Option.none
        (.response 200 { execution_id := some "exec-77" })).2 = [] ∧
    assessStrategyEffectiveness
        (getAdaptiveStrategy "https://example.supabase.co" "anon-key" [] perfOk .strategist
          .medium "user-1" Option.none
          (.response 200 { execution_id := some "exec-77" })).2 "exec-77" mBefore mAfter
      = (false, 0, "Execution not found") :=
  get_adaptive_strategy_frame "https://example.supabase.co" "anon-key" [] perfOk .strategist
    .medium "user-1" Option.none (.response 200 { execution_id := some "exec-77" })
    "exec-77" mBefore mAfter rfl

/-- The flag the pace block contributes is exactly the disjunction of the
two amended pace conditions. -/
theorem assessPaceBlock_fst (context : ExecutionContext) (b a : Metrics) :
    (assessPaceBlock context b a).1
      = decide (amendedCond1 context b a ∨ amendedCond2 context b a) := by
  rw [Bool.eq_iff_iff, decide_eq_true_iff]
  simp only [assessPaceBlock]
  unfold amendedCond1 amendedCond2
  split_ifs with h1 h2 h3 h4 h5 <;> simp_all

/-- The score increment the pace block contributes, expressed through the
amended pace conditions. -/
theorem assessPaceBlock_score (context : ExecutionContext) (b a : Metrics) :
    (assessPaceBlock context b a).2.1
      = (if amendedCond1 context b a then (0.3 : ℚ) else 0)
          + (if amendedCond2 context b a then (0.2 : ℚ) else 0) := by
  by_cases hc1 : amendedCond1 context b a <;> by_cases hc2 : amendedCond2 context b a
  · unfold amendedCond1 at hc1
    unfold amendedCond2 at hc2
    exact absurd hc1.2.1 hc2.2.1
  · rw [if_pos hc1, if_neg hc2]
    simp only [assessPaceBlock]
    unfold amendedCond1 at hc1
    rw [if_pos hc1.1, if_pos hc1.2.1, if_pos hc1.2.2]
    norm_num
  · rw [if_neg hc1, if_pos hc2]
    simp only [assessPaceBlock]
    unfold amendedCond2 at hc2
    rw [if_pos hc2.1, if_neg hc2.2.1, if_pos hc2.2.2.1, if_pos hc2.2.2.2]
    norm_num
  · rw [if_neg hc1, if_neg hc2]
    simp only [assessPaceBlock]
    unfold amendedCond1 at hc1
    unfold amendedCond2 at hc2
    split_ifs with h1 h2 h3 h4 h5 <;>
      first
        | exact (hc1 ⟨h1, h2, h3⟩).elim
        | exact (hc2 ⟨h1, h2, h4, h5⟩).elim
        | norm_num

/-- The flag the heart-rate block contributes is exactly the amended
heart-rate condition. -/
theorem assessHrBlock_fst (context : ExecutionContext) (b a : Metrics) :
    (assessHrBlock context b a).1 = decide (amendedCond3 context b a) := by
  rw [Bool.eq_iff_iff, decide_eq_true_iff]
  simp only [assessHrBlock]
  unfold amendedCond3
  split_ifs with h1 h2 h3 <;> simp_all

/-- The score increment the heart-rate block contributes. -/
theorem assessHrBlock_score (context : ExecutionContext) (b a : Metrics) :
    (assessHrBlock context b a).2.1
      = (if amendedCond3 context b a then (0.2 : ℚ) else 0) := by
  by_cases hc : amendedCond3 context b a
  · rw [if_pos hc]
    simp only [assessHrBlock]
    unfold amendedCond3 at hc
    rw [if_pos hc.1, if_pos hc.2.1, if_pos hc.2.2]
  · rw [if_neg hc]
    simp only [assessHrBlock]
    unfold amendedCond3 at hc
    split_ifs with h1 h2 h3 <;>
      first
        | exact (hc ⟨h1, h2, h3⟩).elim
        | norm_num

/-- The stored zone_too_high flag reads true exactly when the key is
present with value true. -/
theorem zoneTooHighRead_iff (context : ExecutionContext) :
    context.zone_too_high.getD false = true ↔ context.zone_too_high = some true := by
  cases hz : context.zone_too_high with
  | none => simp
  | some bv => cases bv <;> simp

/-- The flag the zone block contributes is exactly the amended zone
condition. -/
theorem assessZoneBlock_fst (context : ExecutionContext) (b a : Metrics) :
    (assessZoneBlock context b a).1 = decide (amendedCond4 context b a) := by
  rw [Bool.eq_iff_iff, decide_eq_true_iff]
  simp only [assessZoneBlock]
  unfold amendedCond4
  split_ifs with h1 h2 <;> simp_all [zoneTooHighRead_iff context]

/-- The score increment the zone block contributes. -/
theorem assessZoneBlock_score (context : ExecutionContext) (b a : Metrics) :
    (assessZoneBlock context b a).2.1
      = (if amendedCond4 context b a then (0.2 : ℚ) else 0) := by
  by_cases hc : amendedCond4 context b a
  · rw [if_pos hc]
    simp only [assessZoneBlock]
    unfold amendedCond4 at hc
    rw [if_pos ((zoneTooHighRead_iff context).mpr hc.1), if_pos hc.2]
  · rw [if_neg hc]
    simp only [assessZoneBlock]
    unfold amendedCond4 at hc
    split_ifs with h1 h2 <;>
      first
        | exact (hc ⟨(zoneTooHighRead_iff context).mp h1, h2⟩).elim
        | norm_num

/-- C1 counterexample: a pending execution recorded with target status
way_behind and fatigue high, assessed on an unchanged positive pace with
no heart-rate or zone readings.  The claimed independent-conditions rule
awards the fatigue-stabilization credit (+0.2, effective, score 0.7),
but the code checks that condition only in the elif branch — unreachable
because the target status is behind — and returns
(False, 0.5, no-improvement). -/
theorem assess_effectiveness_claim_counterexample :
    assessStrategyEffectiveness [("exec-1", execBehindTired)] "exec-1" mBefore mAfter
        = (false, 1/2, "No significant improvement detected") ∧
    claimC1EffectivenessRule execBehindTired.execution_context mBefore mAfter
        = (true, 7/10) := by
  constructor
  · norm_num [assessStrategyEffectiveness, assessPaceBlock, assessHrBlock, assessZoneBlock,
      execBehindTired, recordedExecutionContext, ctxBehindTired, perfOk, mBefore, mAfter,
      List.lookup]
    all_goals decide
  · norm_num [claimC1EffectivenessRule, execBehindTired, recordedExecutionContext,
      ctxBehindTired, perfOk, mBefore, mAfter]
    all_goals decide

/-- C1 amended: for every execution id present in the pending store,
assess_strategy_effectiveness computes was_effective and the score by
the amended rule: the target-behind and fatigue conditions form an
if/elif chain on the pace pair (the fatigue condition only applies when
the target status is not behind), the pace conditions require both pace
readings positive and a strict improvement threshold (change < -0.05),
the heart-rate condition requires both heart-rate readings positive, the
zone condition requires zone_too_high present and true in the stored
context (never the case for contexts written by _record_execution), the
score is clamped to [0,1], and was_effective holds exactly when some
condition contributed. -/
theorem assess_effectiveness_amended (pending : PendingStore) (execution_id : String)
    (before_metrics after_metrics : Metrics) (execution : StrategyExecution)
    (h : pending.lookup execution_id = some execution) :
    (assessStrategyEffectiveness pending execution_id before_metrics after_metrics).1
        = (amendedC1EffectivenessRule execution.execution_context before_metrics
            after_metrics).1 ∧
    (assessStrategyEffectiveness pending execution_id before_metrics after_metrics).2.1
        = (amendedC1EffectivenessRule execution.execution_context before_metrics
            after_metrics).2 := by
  simp only [assessStrategyEffectiveness, h, amendedC1EffectivenessRule]
  constructor
  · rw [assessPaceBlock_fst, assessHrBlock_fst, assessZoneBlock_fst]
    by_cases h1 : amendedCond1 execution.execution_context before_metrics after_metrics <;>
      by_cases h2 : amendedCond2 execution.execution_context before_metrics after_metrics <;>
        by_cases h3 : amendedCond3 execution.execution_context before_metrics after_metrics <;>
          by_cases h4 : amendedCond4 execution.execution_context before_metrics after_metrics <;>
            simp [h1, h2, h3, h4]
  · rw [assessPaceBlock_score, assessHrBlock_score, assessZoneBlock_score]
    congr 2
    ring

/-- C1 amended witness: the amended rule agrees with the code on the
concrete pending execution of the counterexample input. -/
theorem assess_effectiveness_amended_witness :
    (assessStrategyEffectiveness [("exec-1", execBehindTired)] "exec-1" mBefore mAfter).1
        = (amendedC1EffectivenessRule execBehindTired.execution_context mBefore mAfter).1 ∧
    (assessStrategyEffectiveness [("exec-1", execBehindTired)] "exec-1" mBefore mAfter).2.1
        = (amendedC1EffectivenessRule execBehindTired.execution_context mBefore mAfter).2 :=
  assess_effectiveness_amended [("exec-1", execBehindTired)] "exec-1" mBefore mAfter
    execBehindTired rfl

/-- C7 counterexample: with the Supabase configuration present and a
healthy 200 collaborator response, get_adaptive_strategy on the
`perfHrZero` snapshot lets the ZeroDivisionError of the situation-context
builder (which runs outside the guarded region) cross the operation
boundary — an exception other than the configuration error escapes. -/
theorem get_adaptive_strategy_exception_counterexample :
    (getAdaptiveStrategy "https://example.supabase.co" "anon-key" [] perfHrZero .strategist
        .medium "user-1" Option.none (.response 200 {})).1
      = .error .zeroDivisionError := by
  rfl

/-- C7 amended: get_adaptive_strategy raises the ValueError configuration
error exactly when the Supabase URL or anon key is absent, before doing
any work (regardless of the snapshot or the collaborator outcome); with
configuration present and the context builder succeeding, the operation
always returns an AdaptiveStrategyOutput, which on any collaborator
failure (raised call or non-200 status) is the fallback output with
confidence 0.5 and no execution id; however an exception raised by the
situation-context builder (which runs before the guarded region) crosses
the operation boundary unchanged. -/
theorem get_adaptive_strategy_error_amended (supabase_url supabase_anon_key : String)
    (pending : PendingStore) (perf : PerformanceAnalysis) (personality : CoachPersonality)
    (energy : CoachEnergy) (user_id : String) (run_id : Option String)
    (edge : EdgeFunctionOutcome) :
    ((supabase_url = "" ∨ supabase_anon_key = "") →
      getAdaptiveStrategy supabase_url supabase_anon_key pending perf personality energy
          user_id run_id edge = (.error .valueError, pending)) ∧
    (supabase_url ≠ "" → supabase_anon_key ≠ "" →
      (∀ context, buildSituationContext perf personality energy = .ok context →
        ∃ out, (getAdaptiveStrategy supabase_url supabase_anon_key pending perf personality
            energy user_id run_id edge).1 = .ok out ∧
          (edgeFailed edge → out.confidence_score = 0.5 ∧ out.execution_id = Option.none)) ∧
      (∀ e, buildSituationContext perf personality energy = .error e →
        (getAdaptiveStrategy supabase_url supabase_anon_key pending perf personality energy
            user_id run_id edge).1 = .error e)) := by
  constructor
  · intro h
    unfold getAdaptiveStrategy
    rw [if_pos h]
  · intro hu hk
    have hcfg : ¬(supabase_url = "" ∨ supabase_anon_key = "") := by tauto
    constructor
    · intro context hctx
      unfold getAdaptiveStrategy
      rw [if_neg hcfg, hctx]
      cases edge with
      | raised => exact ⟨_, rfl, fun _ => ⟨rfl, rfl⟩⟩
      | response status strategy_data =>
        by_cases hs : status = 200
        · subst hs
          exact ⟨_, rfl, fun hf => absurd rfl hf⟩
        · refine ⟨fallbackAdaptiveOutput context, ?_, fun _ => ⟨rfl, rfl⟩⟩
          simp [hs]
    · intro e he
      unfold getAdaptiveStrategy
      rw [if_neg hcfg, he]

/-- Evaluation of the context builder on the benign snapshot. -/
theorem buildSituationContext_perfOk :
    buildSituationContext perfOk .strategist .medium = .ok ctxOk := by
  norm_num [buildSituationContext, computePushPossible, perfOk, ctxOk, buildTags]
  all_goals decide

/-- C7 amended witness: the amended theorem at the empty configuration
(ValueError) and at a configured engine with a raised collaborator call
(fallback output, confidence 0.5, no execution id). -/
theorem get_adaptive_strategy_error_amended_witness :
    (getAdaptiveStrategy "" "" [] perfOk .strategist .medium "user-1" Option.none .raised
        = (.error .valueError, [])) ∧
    (∃ out, (getAdaptiveStrategy "https://example.supabase.co" "anon-key" [] perfOk .strategist
        .medium "user-1" Option.none .raised).1 = .ok out ∧
      (edgeFailed .raised → out.confidence_score = 0.5 ∧ out.execution_id = Option.none)) := by
  constructor
  · exact (get_adaptive_strategy_error_amended "" "" [] perfOk .strategist .medium "user-1"
      Option.none .raised).1 (Or.inl rfl)
  · exact ((get_adaptive_strategy_error_amended "https://example.supabase.co" "anon-key" []
      perfOk .strategist .medium "user-1" Option.none .raised).2 (by decide) (by decide)).1
      ctxOk buildSituationContext_perfOk

/-- C4: the claim says the memory fetcher returns an empty list and never
raises whenever the personalization collaborator is unconfigured or its
calls fail — but on a fresh engine (the only state the repository can
produce, since nothing ever assigns mem0_api_key) the guard that should
detect the missing key itself raises AttributeError.  The second and
third conjuncts show the claimed behaviour does hold once the attribute
has been assigned from outside: a missing base URL and failing search
calls both yield the empty list. -/
theorem fetch_mem0_attribute_bug :
    fetchMem0CoachingMemories Option.none (some "https://api.mem0.ai/v1") "user-1" ctxOk []
        = .error .attributeError ∧
    fetchMem0CoachingMemories (some "mem0-key") Option.none "user-1" ctxOk
        [.raised, .raised, .raised] = .ok [] ∧
    fetchMem0CoachingMemories (some "mem0-key") (some "https://api.mem0.ai/v1") "user-1" ctxOk
        [.raised] = .ok [] := by
  exact ⟨rfl, rfl, rfl⟩

/-- C6: on a 200 response whose content is a bare JSON array of match
results, the reranker does NOT treat it as a successful parse: the
`parsed.get("matches", [])` read raises AttributeError on a Python list,
the outer handler swallows it, and the final success-rate fallback
ranking is returned with the match results discarded (first two
conjuncts: the single candidate comes back unannotated).  The third
conjunct shows what the successful-parse path would have produced — the
candidate annotated with the array entry's match_score and reason. -/
theorem llm_match_bare_array_bug :
    llmMatchConditions (some "sk-test") [kbRowA]
        (.response 200 (.parses (.jarray [bareArrayEntry]))) = .ok (rerankFallback [kbRowA]) ∧
    rerankFallback [kbRowA] = [kbRowA] ∧
    attachMatches [kbRowA] [bareArrayEntry]
        = [{ kbRowA with match_score := some 0.9, match_reason := some "conditions fit" }] := by
  exact ⟨rfl, rfl, rfl⟩

/-- Membership in a stable insertion is membership in the inserted
element or the original list. -/
theorem mem_insertSorted {α : Type _} (le : α → α → Bool) (a x : α) (l : List α) :
    x ∈ insertSorted le a l ↔ x = a ∨ x ∈ l := by
  induction l with
  | nil => simp [insertSorted]
  | cons b t ih =>
    simp only [insertSorted]
    split_ifs with hle
    · simp [List.mem_cons]
    · simp only [List.mem_cons, ih]
      tauto

/-- `pySort` preserves membership. -/
theorem mem_pySort {α : Type _} (le : α → α → Bool) (l : List α) (x : α) :
    x ∈ pySort le l ↔ x ∈ l := by
  induction l with
  | nil => simp [pySort]
  | cons a t ih =>
    show x ∈ insertSorted le a (pySort le t) ↔ x ∈ a :: t
    rw [mem_insertSorted]
    simp [ih]

/-- The fallback ranking has at most 8 elements. -/
theorem rerankFallback_length (kb_strategies : List KBStrategy) :
    (rerankFallback kb_strategies).length ≤ 8 := by
  simpa [rerankFallback, List.length_take] using min_le_left 8 _

/-- Every id in the fallback ranking comes from the input candidates. -/
theorem rerankFallback_id_mem (kb_strategies : List KBStrategy) (s : KBStrategy)
    (hs : s ∈ rerankFallback kb_strategies) : s.id ∈ kb_strategies.map (·.id) :=
  List.mem_map_of_mem _ ((mem_pySort _ _ _).mp (List.mem_of_mem_take hs))

/-- A strategy kept by `attachMatches` has its id among the input
candidates and among the match=true entries of the response. -/
theorem attachMatches_mem (kb_strategies : List KBStrategy) (matchList : List MatchEntry)
    (s : KBStrategy) (h : s ∈ attachMatches kb_strategies matchList) :
    s.id ∈ kb_strategies.map (·.id)
      ∧ s.id ∈ (matchList.filter (·.isMatch)).map (·.id) := by
  unfold attachMatches at h
  simp only [List.mem_filterMap] at h
  obtain ⟨s0, hs0, hmk⟩ := h
  cases hfind : (matchList.filter (·.isMatch)).reverse.find? (fun m => m.id = s0.id) with
  | none => rw [hfind] at hmk; cases hmk
  | some m =>
    rw [hfind] at hmk
    have hmem : m ∈ matchList.filter (·.isMatch) :=
      List.mem_reverse.mp (List.mem_of_find?_eq_some hfind)
    have hid : m.id = s0.id := by
      have := List.find?_some hfind
      simpa using this
    have hs : s = { s0 with match_score := some (m.match_score.getD 0.7)
                            match_reason := some (m.reason.getD "") } := by
      cases hmk
      rfl
    subst hs
    constructor
    · show s0.id ∈ _
      exact List.mem_map_of_mem _ hs0
    · show s0.id ∈ _
      rw [← hid]
      exact List.mem_map_of_mem _ hmem

/-- With its key attribute set, the reranker returns the fallback ranking
in every trigger situation. -/
theorem llmMatchConditions_fallback (key : String) (kb_strategies : List KBStrategy)
    (llm : LLMOutcome) (hcase : rerankFallbackTrigger key kb_strategies llm) :
    llmMatchConditions (some key) kb_strategies llm = .ok (rerankFallback kb_strategies) := by
  simp only [llmMatchConditions]
  by_cases hg : key = "" ∨ kb_strategies = []
  · rw [if_pos hg]
  · rw [if_neg hg]
    push_neg at hg
    rcases hcase with h | h | h | ⟨status, content, hl, hst⟩ | ⟨status, hl⟩ | ⟨status, items, hl⟩
    · exact absurd h hg.1
    · exact absurd h hg.2
    · subst h; rfl
    · subst hl; simp [hst]
    · subst hl
      by_cases hst : status = 200
      · subst hst; rfl
      · simp [hst]
    · subst hl
      by_cases hst : status = 200
      · subst hst; rfl
      · simp [hst]

/-- With its key attribute set truthy, a nonempty candidate list and a
200 response parsing to a JSON object, the reranker returns the
annotated, sorted, truncated match list. -/
theorem llmMatchConditions_jobject (key : String) (kb_strategies : List KBStrategy)
    (matchesField : Option (List MatchEntry)) (hk : key ≠ "") (hkb : kb_strategies ≠ []) :
    llmMatchConditions (some key) kb_strategies (.response 200 (.parses (.jobject matchesField)))
      = .ok ((pySort rerankSortGE (attachMatches kb_strategies (matchesField.getD []))).take 8)
    := by
  simp only [llmMatchConditions]
  rw [if_neg (by tauto)]
  simp

/-- C8 amended: whenever the reranker produces a result at all — which
requires the never-assigned collaborator-key attribute to have been set
from outside the class, a fresh engine raising AttributeError instead —
the result has at most 8 elements and every element's id comes from the
input candidate set; in every fallback-trigger situation (key falsy, no
candidates, raised call, non-200 status, unparseable content, or a bare
JSON array) the result is exactly the unmodified candidates sorted by
(success_rate, times_used) descending and truncated to 8; and on the
success path every element's id appears with match=true in the response
(a candidate absent from the response is dropped, never defaulted). -/
theorem llm_match_output_amended (openai_key : Option String)
    (kb_strategies : List KBStrategy) (llm : LLMOutcome) (result : List KBStrategy)
    (h : llmMatchConditions openai_key kb_strategies llm = .ok result) :
    result.length ≤ 8 ∧
    (∀ s ∈ result, s.id ∈ kb_strategies.map (·.id)) ∧
    (∀ key, openai_key = some key → rerankFallbackTrigger key kb_strategies llm →
      result = rerankFallback kb_strategies) ∧
    (∀ key status matchesField, openai_key = some key → key ≠ "" → kb_strategies ≠ [] →
      llm = .response status (.parses (.jobject matchesField)) → status = 200 →
      ∀ s ∈ result,
        s.id ∈ ((matchesField.getD []).filter (·.isMatch)).map (·.id)) := by
  cases openai_key with
  | none => simp [llmMatchConditions] at h
  | some key =>
    by_cases hsucc : ∃ matchesField,
        llm = .response 200 (.parses (.jobject matchesField)) ∧ key ≠ "" ∧ kb_strategies ≠ []
    · obtain ⟨mf, hllm, hk, hkb⟩ := hsucc
      subst hllm
      rw [llmMatchConditions_jobject key kb_strategies mf hk hkb] at h
      injection h with h2
      subst h2
      refine ⟨?_, ?_, ?_, ?_⟩
      · simpa [List.length_take] using min_le_left 8 _
      · intro s hs
        exact (attachMatches_mem _ _ s
          ((mem_pySort _ _ _).mp (List.mem_of_mem_take hs))).1
      · intro key2 hkey htrig
        injection hkey with hkk
        subst hkk
        rcases htrig with h | h | h | ⟨st, c, heq, hne⟩ | ⟨st, heq⟩ | ⟨st, items, heq⟩ <;>
          simp_all
      · intro key2 status mf2 hkey hkne hkbne heq h200 s hs
        have hmf : mf2 = mf := by
          injection heq with h1 h2
          injection h2 with h3
          injection h3 with h4
          exact h4.symm
        subst hmf
        exact (attachMatches_mem _ _ s
          ((mem_pySort _ _ _).mp (List.mem_of_mem_take hs))).2
    · have htrig : rerankFallbackTrigger key kb_strategies llm := by
        unfold rerankFallbackTrigger
        by_cases hk : key = ""
        · exact Or.inl hk
        by_cases hkb : kb_strategies = []
        · exact Or.inr (Or.inl hkb)
        cases llm with
        | raised => exact Or.inr (Or.inr (Or.inl rfl))
        | response status content =>
          by_cases hst : status = 200
          · subst hst
            cases content with
            | unparseable =>
              exact Or.inr (Or.inr (Or.inr (Or.inr (Or.inl ⟨200, rfl⟩))))
            | parses v =>
              cases v with
              | jarray items =>
                exact Or.inr (Or.inr (Or.inr (Or.inr (Or.inr ⟨200, items, rfl⟩))))
              | jobject mf => exact absurd ⟨mf, rfl, hk, hkb⟩ hsucc
          · exact Or.inr (Or.inr (Or.inr (Or.inl ⟨status, content, rfl, hst⟩)))
      rw [llmMatchConditions_fallback key kb_strategies llm htrig] at h
      injection h with h2
      subst h2
      refine ⟨rerankFallback_length _, fun s hs => rerankFallback_id_mem _ s hs,
        fun _ _ _ => rfl, ?_⟩
      intro key2 status mf2 hkey hkne hkbne heq h200 s hs
      injection hkey with hkk
      subst hkk
      subst h200
      exact absurd ⟨mf2, heq, hkne, hkbne⟩ hsucc

/-- C8 amended witness: the amended theorem at a set-but-empty key (an
unconfigured collaborator) with one candidate: the fallback ranking — the
candidate itself — comes back, within the 8-element and id bounds. -/
theorem llm_match_output_amended_witness :
    [kbRowA].length ≤ 8 ∧ (∀ s ∈ [kbRowA], s.id ∈ [kbRowA].map (·.id)) ∧
    [kbRowA] = rerankFallback [kbRowA] := by
  have h := llm_match_output_amended (some "") [kbRowA] .raised [kbRowA] rfl
  exact ⟨h.1, h.2.1, h.2.2.1 "" rfl (Or.inl rfl)⟩

/-- C8 counterexample: on a fresh engine the collaborator-key attribute
was never assigned, so the reranker raises AttributeError from its guard
instead of returning the sorted fallback candidates the claim promises
for the unconfigured case. -/
theorem llm_match_unconfigured_counterexample :
    llmMatchConditions Option.none [kbRowA] (.response 200 (.parses (.jobject (some []))))
        = .error .attributeError ∧
    ∀ result, llmMatchConditions Option.none [kbRowA]
        (.response 200 (.parses (.jobject (some [])))) ≠ .ok result := by
  refine ⟨rfl, fun result h => ?_⟩
  simp [llmMatchConditions] at h

/-- The distance category of the benign snapshot (10000m → "10k"). -/
theorem distanceCategory_perfOk : getDistanceCategory perfOk.target_distance = "10k" := by
  show getDistanceCategory 10000 = "10k"
  rw [getDistanceCategory_eq_meters]
  norm_num

/-- The runner level of the benign snapshot (stable pace and heart rate,
zero deviation → "advanced"). -/
theorem runnerLevel_perfOk : getRunnerLevel perfOk = "advanced" := by
  unfold getRunnerLevel
  rw [if_pos ⟨rfl, rfl, by norm_num [perfOk]⟩]

/-- Evaluation of one configured retrieval with a fresh cache entry in
place: the non-vector KB query is issued (an empty 200 reply), and the
static fallback list is returned. -/
theorem retrieve_with_cache_eval :
    retrieveStrategies "https://example.supabase.co" (some "service-key") Option.none
        [(("10k", "advanced"), cachedStrategies)] ctxOk perfOk
        (.response 200 []) (.response 200 []) .raised
      = (.ok (getFallbackStrategies ctxOk), [CollabCall.kbQuery "10k" "advanced" 15]) := by
  simp only [retrieveStrategies, generateEmbedding]
  rw [distanceCategory_perfOk, runnerLevel_perfOk]
  simp [afterKbRows, queryKbFallback]

/-- C3 counterexample: a retrieval request whose (distance_category,
runner_level) key has a cache entry in the in-memory cache nevertheless
issues a collaborator call (the non-vector KB query — not even the
vector search the claim names) and does not return the cached candidate
list: the cache is never consulted. -/
theorem retrieve_cache_claim_counterexample :
    (retrieveStrategies "https://example.supabase.co" (some "service-key") Option.none
        [(("10k", "advanced"), cachedStrategies)] ctxOk perfOk
        (.response 200 []) (.response 200 []) .raised).2 ≠ [] ∧
    (retrieveStrategies "https://example.supabase.co" (some "service-key") Option.none
        [(("10k", "advanced"), cachedStrategies)] ctxOk perfOk
        (.response 200 []) (.response 200 []) .raised).1 ≠ .ok cachedStrategies := by
  rw [retrieve_with_cache_eval]
  constructor
  · simp
  · simp [getFallbackStrategies, ctxOk, cachedStrategies]

/-- C3 amended: _retrieve_strategies never consults the in-memory cache —
its result and trace are identical for any two cache contents — and never
reaches the vector search: with an empty Supabase URL it returns the
static fallback list without any collaborator call; with a URL present on
a fresh engine the read of the never-assigned supabase_key attribute
raises AttributeError before any work; and with the attribute set truthy
the stubbed embedding generator forces the single collaborator call to be
the non-vector KB query with limit 15 (the 0.65-floor / top-15 vector
request exists only in the unreachable embedding branch). -/
theorem retrieve_no_cache_amended (supabase_url : String)
    (supabase_key openai_key : Option String)
    (cache1 cache2 : List ((String × String) × List CoachingStrategy))
    (context : SituationContext) (perf : PerformanceAnalysis)
    (vs : VectorOutcome) (kbq : KBQueryOutcome) (llm : LLMOutcome) :
    (retrieveStrategies supabase_url supabase_key openai_key cache1 context perf vs kbq llm
      = retrieveStrategies supabase_url supabase_key openai_key cache2 context perf vs kbq llm) ∧
    (supabase_url = "" →
      retrieveStrategies supabase_url supabase_key openai_key cache1 context perf vs kbq llm
        = (.ok (getFallbackStrategies context), [])) ∧
    (supabase_url ≠ "" → supabase_key = Option.none →
      retrieveStrategies supabase_url supabase_key openai_key cache1 context perf vs kbq llm
        = (.error .attributeError, [])) ∧
    (∀ key, supabase_url ≠ "" → supabase_key = some key → key ≠ "" →
      (retrieveStrategies supabase_url supabase_key openai_key cache1 context perf vs kbq llm).2
        = [CollabCall.kbQuery (getDistanceCategory perf.target_distance)
            (getRunnerLevel perf) 15]) := by
  refine ⟨rfl, ?_, ?_, ?_⟩
  · intro h
    unfold retrieveStrategies
    rw [if_pos h]
  · intro hu hk
    subst hk
    unfold retrieveStrategies
    rw [if_neg hu]
  · intro key hu hk hkey
    subst hk
    unfold retrieveStrategies
    rw [if_neg hu]
    simp [hkey, generateEmbedding]

/-- C3 amended witness: the amended theorem at an unconfigured URL (static
fallback, no calls), at a fresh engine with a URL (AttributeError), and at
a set key (exactly one non-vector KB query in the trace). -/
theorem retrieve_no_cache_amended_witness :
    (retrieveStrategies "" Option.none Option.none [] ctxOk perfOk
        (.response 200 []) (.response 200 []) .raised
      = (.ok (getFallbackStrategies ctxOk), [])) ∧
    (retrieveStrategies "https://example.supabase.co" Option.none Option.none [] ctxOk perfOk
        (.response 200 []) (.response 200 []) .raised
      = (.error .attributeError, [])) ∧
    ((retrieveStrategies "https://example.supabase.co" (some "service-key") Option.none []
        ctxOk perfOk (.response 200 []) (.response 200 []) .raised).2
      = [CollabCall.kbQuery (getDistanceCategory perfOk.target_distance)
          (getRunnerLevel perfOk) 15]) := by
  refine ⟨?_, ?_, ?_⟩
  · exact (retrieve_no_cache_amended "" Option.none Option.none [] [] ctxOk perfOk
      (.response 200 []) (.response 200 []) .raised).2.1 rfl
  · exact (retrieve_no_cache_amended "https://example.supabase.co" Option.none Option.none [] []
      ctxOk perfOk (.response 200 []) (.response 200 []) .raised).2.2.1 (by decide) rfl
  · exact (retrieve_no_cache_amended "https://example.supabase.co" (some "service-key")
      Option.none [] [] ctxOk perfOk (.response 200 []) (.response 200 [])
      .raised).2.2.2 "service-key" (by decide) rfl (by decide)

end CoachRAG
